import Mathlib

/-!
Shallow embedding of `src/01-embedded-c-fundamentals/pointer_traps.c`,
a catalog of independent pointer-hazard demonstration functions.

Pointers are modelled as `Nat` addresses (`Option Nat` where NULL matters),
memory regions as functions `Nat → Int`, and console output as lists of
printed values.  The file's only non-local state is the global register
pointer `reg` (line 270) and the function-local `static int x` inside
`update_pointer` (line 244); both live in `Globals`, which every
demonstration takes and returns so that cross-demonstration effects are
visible.
-/

/-- Storage region a C object lives in: an automatic (stack) local whose
lifetime ends when its scope exits, or static storage that outlives calls. -/
inductive Region where
  | stackLocal
  | staticStorage
  deriving DecidableEq

/-- Address of the function-local `static int x = 100` of `update_pointer`
(line 244); static storage, it outlives every call. -/
def static_x_addr : Nat := 1024

/-- Hardware register address from `#define REG_ADDR 0x40000000` (line 269). -/
def REG_ADDR : Nat := 0x40000000

/-- Objects of the file with static storage duration: `x` from
`update_pointer` (line 244) and the register pointer `reg` (line 270). -/
structure Globals where
  x : Int
  reg : Nat
  deriving DecidableEq

/-- State of the static storage after C static initialization:
`static int x = 100` and `reg = (volatile uint32_t *)REG_ADDR` (line 270). -/
def initGlobals : Globals := { x := 100, reg := REG_ADDR }

/-- Read of an `int` from static storage at an address. -/
def staticMemRead (g : Globals) (a : Nat) : Int :=
  if a = static_x_addr then g.x else 0

/-- Pointwise store update, modelling `*p = v` in a local memory region. -/
def writeMem (m : Nat → Int) (a : Nat) (v : Int) : Nat → Int :=
  fun b => if b = a then v else m b

/-- Ways the pointer of a demonstration is declared: with no initializer at
all, with a NULL initializer, or with the address of an object. -/
inductive PtrInit where
  | uninitialized
  | nullInit
  | addrInit (a : Nat)
  deriving DecidableEq

/-- Declaration of `ptr` in `uninitialized_pointer_demo` (line 28):
`int *ptr;` carries no initializer. -/
def uninitialized_pointer_demo_ptrInit : PtrInit := PtrInit.uninitialized

/-- Function `uninitialized_pointer_demo` (lines 26-30): declares
`int *ptr;`; the dereference `*ptr = 10` (line 29) is commented out, so the
executed body performs no memory access.  The second component is the list
of addresses the body accesses. -/
def uninitialized_pointer_demo (g : Globals) : Globals × List Nat :=
  (g, [])

/-- Function `null_pointer_demo` (lines 52-60): `int *ptr = NULL;` then a
write through `ptr` guarded by `if (ptr != NULL)`.  The local memory
region `m` stands for whatever `ptr` could address. -/
def null_pointer_demo (g : Globals) (m : Nat → Int) : Globals × (Nat → Int) :=
  let ptr : Option Nat := none
  match ptr with
  | some a => (g, writeMem m a 10)
  | none => (g, m)

/-- Stack address of the automatic variable `local` of
`dangling_pointer_demo` (line 82). -/
def dangling_local_addr : Nat := 640

/-- Function `dangling_pointer_demo` (lines 80-84): `int local = 10;
return &local;`.  The executed return yields the address of the automatic
local together with its provenance, a stack region dead after return. -/
def dangling_pointer_demo (g : Globals) : Globals × (Nat × Region) :=
  (g, (dangling_local_addr, Region.stackLocal))

/-- Kinds of const-qualified pointer in `const_pointer_demo` (lines
107-108): `const int *` (data const) and `int *const` (pointer const). -/
inductive PtrQual where
  | ptrToConst
  | constQualPtr
  deriving DecidableEq

/-- C const rule as annotated in the source: writing through `const int *`
is rejected by the compiler (line 110, commented "not allowed"); writing
through `int *const` compiles (line 113). -/
def writeThroughAllowed : PtrQual → Bool
  | PtrQual.ptrToConst => false
  | PtrQual.constQualPtr => true

/-- C const rule as annotated in the source: rebinding `const int *`
compiles (line 111); rebinding `int *const` is rejected (line 114,
commented "not allowed"). -/
def rebindAllowed : PtrQual → Bool
  | PtrQual.ptrToConst => true
  | PtrQual.constQualPtr => false

/-- Local address of `a` in `const_pointer_demo`. -/
def addr_a : Nat := 0

/-- Local address of `b` in `const_pointer_demo`. -/
def addr_b : Nat := 1

/-- Final locals of `const_pointer_demo`: its memory region (holding `a`
and `b`) and the two pointers. -/
structure ConstDemoResult where
  mem : Nat → Int
  p1 : Nat
  p2 : Nat

/-- Function `const_pointer_demo` (lines 102-115), executed statements
only: `a = 10; b = 20; p1 = &a; p2 = &a; p1 = &b; *p2 = 15;`.  The two
statements the compiler rejects (lines 110 and 114) are commented out in
the source and so absent here. -/
def const_pointer_demo (g : Globals) : Globals × ConstDemoResult :=
  let m : Nat → Int := fun _ => 0
  let m := writeMem m addr_a 10
  let m := writeMem m addr_b 20
  let p1 := addr_a
  let p2 := addr_a
  let p1 := addr_b
  let m := writeMem m p2 15
  (g, ⟨m, p1, p2⟩)

/-- Size of `int` on the platform the file annotates: line 224 calls a
five-int array "20 bytes". -/
def sizeof_int : Nat := 4

/-- Pointer advance in element units: `p + n` on an `int *` moves by `n`
elements. -/
def ptrAdd (p n : Nat) : Nat := p + n

/-- Byte offset of element index `i` in an int array: index times
`sizeof(int)` — the point of the trap (line 131). -/
def byteOffset (i : Nat) : Nat := i * sizeof_int

/-- Array element read, modelling `*(p + k)` on a decayed array pointer. -/
def derefArr (arr : List Int) (i : Nat) : Int := arr.getD i 0

/-- Function `pointer_arithmetic_demo` (lines 134-140): `int arr[3] =
\x7b10, 20, 30\x7d; int *p = arr;` then it prints `*(p + 1)`.  The second
component is the list of ints printed. -/
def pointer_arithmetic_demo (g : Globals) : Globals × List Int :=
  let arr : List Int := [10, 20, 30]
  let p : Nat := 0
  (g, [derefArr arr (ptrAdd p 1)])

/-- Function `void_pointer_demo` (lines 160-167): `int a = 10; void *vp =
&a;`.  The direct dereference of `vp` (line 165) is commented out; the
executed line prints `*(int *)vp`, the int read back through the cast.
`a` lives at local address 0. -/
def void_pointer_demo (g : Globals) : Globals × List Int :=
  let m : Nat → Int := writeMem (fun _ => 0) 0 10
  let vp : Nat := 0
  (g, [m vp])

/-- Function `handler1` (lines 183-186): prints "Handler 1". -/
def handler1 (out : List String) : List String :=
  out ++ ["Handler 1\n"]

/-- Function `handler2` (lines 188-191): prints "Handler 2". -/
def handler2 (out : List String) : List String :=
  out ++ ["Handler 2\n"]

/-- Function `function_pointer_demo` (lines 193-202): assigns
`fp = handler1`, calls `fp()`, reassigns `fp = handler2`, calls `fp()`
again.  The second component is the accumulated console output. -/
def function_pointer_demo (g : Globals) : Globals × List String :=
  let fp := handler1
  let out := fp []
  let fp := handler2
  let out := fp out
  (g, out)

/-- Size of a C array: element count times element size. -/
def sizeof_array (count elemSize : Nat) : Nat := count * elemSize

/-- Function `array_pointer_demo` (lines 219-226): prints `sizeof(arr)`
for `int arr[5]`, then `sizeof(p)` for `int *p = arr`.  The platform
pointer size is a parameter: line 225 annotates it "4 or 8 bytes". -/
def array_pointer_demo (g : Globals) (ptrSize : Nat) : Globals × List Nat :=
  (g, [sizeof_array 5 sizeof_int, ptrSize])

/-- Function `update_pointer` (lines 242-246): `static int x = 100;
*pp = &x;`.  The write through the out-parameter `pp` is modelled by
returning the new value of the caller's pointer; `x` itself lives in
`Globals` and is not written by the call. -/
def update_pointer (g : Globals) (pp : Option Nat) : Globals × Option Nat :=
  (g, some static_x_addr)

/-- Function `double_pointer_demo` (lines 248-252): `int *p = NULL;
update_pointer(&p);`.  The second component is the final value of `p`. -/
def double_pointer_demo (g : Globals) : Globals × Option Nat :=
  let p : Option Nat := none
  update_pointer g p

/-- Catalog entry: a demonstration's name and, when its body contains an
unsafe line, whether that line is commented out (`none` when the body has
no unsafe line at all). -/
structure DemoEntry where
  name : String
  unsafeCommented : Option Bool
  deriving DecidableEq

/-- The hazard catalog: the nine demonstration functions, the status of
each body's unsafe line read off the source (commented out at lines 29,
110 and 114, and 165; executed at line 83). -/
def hazardCatalog : List DemoEntry :=
  [⟨"uninitialized_pointer_demo", some true⟩,
   ⟨"null_pointer_demo", none⟩,
   ⟨"dangling_pointer_demo", some false⟩,
   ⟨"const_pointer_demo", some true⟩,
   ⟨"pointer_arithmetic_demo", none⟩,
   ⟨"void_pointer_demo", some true⟩,
   ⟨"function_pointer_demo", none⟩,
   ⟨"array_pointer_demo", none⟩,
   ⟨"double_pointer_demo", none⟩]

/-- Declaration with static storage duration, by name and source line. -/
structure StaticDecl where
  name : String
  line : Nat
  deriving DecidableEq

/-- Every object of the file with static storage duration: the global
register pointer `reg` (line 270) and `update_pointer`'s local
`static int x` (line 244). -/
def programStaticDecls : List StaticDecl :=
  [⟨"reg", 270⟩, ⟨"x", 244⟩]

/-- Names of the nine demonstration functions. -/
inductive DemoId where
  | uninitPtr
  | nullPtr
  | danglingPtr
  | constPtrDemo
  | ptrArith
  | voidPtr
  | funcPtr
  | arrayPtr
  | doublePtr
  deriving DecidableEq

/-- Effect of one demonstration on the static storage (with a fresh zero
local memory for `null_pointer_demo` and pointer size 8 for
`array_pointer_demo`; neither choice is ever observable in the result). -/
def runDemoEffect (d : DemoId) (g : Globals) : Globals :=
  match d with
  | DemoId.uninitPtr => (uninitialized_pointer_demo g).1
  | DemoId.nullPtr => (null_pointer_demo g (fun _ => 0)).1
  | DemoId.danglingPtr => (dangling_pointer_demo g).1
  | DemoId.constPtrDemo => (const_pointer_demo g).1
  | DemoId.ptrArith => (pointer_arithmetic_demo g).1
  | DemoId.voidPtr => (void_pointer_demo g).1
  | DemoId.funcPtr => (function_pointer_demo g).1
  | DemoId.arrayPtr => (array_pointer_demo g 8).1
  | DemoId.doublePtr => (double_pointer_demo g).1

/-- Claim C1, counterexample: the claim as stated is false, because the
catalog contains an entry whose unsafe line is executed rather than
commented out — `dangling_pointer_demo` returns the address of its
automatic local `local` (line 83), a stack-scoped object. -/
theorem c1_claim_false :
    ¬ ((∀ e ∈ hazardCatalog, e.unsafeCommented ≠ some false) ∧
      (dangling_pointer_demo initGlobals).2.2 ≠ Region.stackLocal) :=
  fun h => h.1 ⟨"dangling_pointer_demo", some false⟩ (by decide) rfl

/-- Claim C1 (amended): every catalog entry other than the
dangling-pointer demonstration has its unsafe line commented out or has no
unsafe line; the dangling-pointer demonstration alone executes its unsafe
line, returning the address of a stack-scoped local, its fix stated only
in the commentary. -/
theorem c1_amended :
    (∀ e ∈ hazardCatalog, e.name ≠ "dangling_pointer_demo" →
      e.unsafeCommented ≠ some false) ∧
    (dangling_pointer_demo initGlobals).2.2 = Region.stackLocal := by
  exact ⟨by decide, rfl⟩

/-- Claim C2: in `pointer_arithmetic_demo`, `*(p + 1)` reads the second
element of the three-int array, 20, and that is the one value the
demonstration prints; the advance is by one pointee size in bytes, not by
one byte. -/
theorem c2_pointer_arithmetic :
    (pointer_arithmetic_demo initGlobals).2 = [20] ∧
    derefArr [10, 20, 30] (ptrAdd 0 1) = 20 ∧
    byteOffset (ptrAdd 0 1) = sizeof_int :=
  ⟨rfl, rfl, rfl⟩

/-- Claim C3: after `double_pointer_demo` initializes `p` to NULL and
passes its address to `update_pointer`, the caller's pointer is non-null
and refers to the helper's static int holding 100. -/
theorem c3_double_pointer :
    (double_pointer_demo initGlobals).2 ≠ none ∧
    ∃ a, (double_pointer_demo initGlobals).2 = some a ∧
      staticMemRead (double_pointer_demo initGlobals).1 a = 100 :=
  ⟨by decide, static_x_addr, rfl, by decide⟩

/-- Claim C4: invoking the function pointer after each assignment
produces the matching handler's output, so the demonstration's total
output is "Handler 1" followed by "Handler 2". -/
theorem c4_function_pointer :
    (function_pointer_demo initGlobals).2 = ["Handler 1\n", "Handler 2\n"] ∧
    handler1 [] = ["Handler 1\n"] ∧
    handler2 ["Handler 1\n"] = ["Handler 1\n", "Handler 2\n"] :=
  ⟨rfl, rfl, rfl⟩

/-- Claim C5, counterexample: the claim's parenthetical — the two sizes
must differ for any array of length greater than 1 — is false on the
annotated platform: with 4-byte ints and an 8-byte pointer, a two-element
array has `sizeof` equal to the pointer size. -/
theorem c5_claim_false :
    ¬ (∀ n, 1 < n → ∀ ptrSize, (ptrSize = 4 ∨ ptrSize = 8) →
      sizeof_array n sizeof_int ≠ ptrSize) :=
  fun h => h 2 (by decide) 8 (Or.inr rfl) (by decide)

/-- Claim C5 (amended): in `array_pointer_demo`, `sizeof(arr)` is
`5 * sizeof(int) = 20` and `sizeof(p)` is the platform pointer size (4 or
8); the two differ here, as they must for any int array of length greater
than 2 on these platforms (for length 2 the array size can equal an
8-byte pointer size). -/
theorem c5_amended (ptrSize : Nat) (h : ptrSize = 4 ∨ ptrSize = 8) :
    (array_pointer_demo initGlobals ptrSize).2 =
      [sizeof_array 5 sizeof_int, ptrSize] ∧
    sizeof_array 5 sizeof_int = 20 ∧
    sizeof_array 5 sizeof_int ≠ ptrSize ∧
    (∀ n, 2 < n → sizeof_array n sizeof_int ≠ ptrSize) := by
  refine ⟨rfl, by decide, ?_, ?_⟩
  · rcases h with rfl | rfl <;> decide
  · intro n hn hEq
    unfold sizeof_array sizeof_int at hEq
    rcases h with rfl | rfl <;> omega

/-- Claim C5 witness: the amended claim at the concrete pointer size 8. -/
theorem c5_amended_witness :
    (array_pointer_demo initGlobals 8).2 = [sizeof_array 5 sizeof_int, 8] ∧
    sizeof_array 5 sizeof_int = 20 ∧
    sizeof_array 5 sizeof_int ≠ 8 ∧
    (∀ n, 2 < n → sizeof_array n sizeof_int ≠ 8) :=
  c5_amended 8 (Or.inr rfl)

/-- Claim C6: rebinding the pointer-to-const succeeds (`p1` ends at `&b`),
writing through it is rejected; writing through the const pointer succeeds
(`a` becomes 15) while rebinding it is rejected (`p2` stays at `&a`). -/
theorem c6_const_pointer :
    rebindAllowed PtrQual.ptrToConst = true ∧
    writeThroughAllowed PtrQual.ptrToConst = false ∧
    writeThroughAllowed PtrQual.constQualPtr = true ∧
    rebindAllowed PtrQual.constQualPtr = false ∧
    (const_pointer_demo initGlobals).2.p1 = addr_b ∧
    (const_pointer_demo initGlobals).2.p2 = addr_a ∧
    (const_pointer_demo initGlobals).2.mem addr_a = 15 ∧
    (const_pointer_demo initGlobals).2.mem addr_b = 20 :=
  ⟨rfl, rfl, rfl, rfl, rfl, rfl, by decide, by decide⟩

/-- Claim C7: the guarded write of `null_pointer_demo` is unreachable
because `ptr` is NULL and never changed, so the demonstration performs no
write and returns with the static storage and its local memory region both
unchanged. -/
theorem c7_null_pointer (g : Globals) (m : Nat → Int) :
    null_pointer_demo g m = (g, m) :=
  rfl

/-- Claim C8, counterexample: the claim as stated is false — the executed
declaration `int *ptr;` (line 28) carries no initializer at all, so the
pointer is not initialized to a null sentinel. -/
theorem c8_claim_false :
    ¬ uninitialized_pointer_demo_ptrInit = PtrInit.nullInit := by
  decide

/-- Claim C8 (amended): the demonstration declares the pointer with no
initializer and leaves the unsafe dereference commented out, so the
executed body performs no memory access at all and leaves the static
storage unchanged; the null-sentinel initialization is only the fix
stated in the commentary. -/
theorem c8_amended (g : Globals) :
    uninitialized_pointer_demo_ptrInit = PtrInit.uninitialized ∧
    (uninitialized_pointer_demo g).2 = [] ∧
    (uninitialized_pointer_demo g).1 = g :=
  ⟨rfl, rfl, rfl⟩

/-- Claim C9, counterexample: the claim as stated is false — the file does
declare objects with static storage duration (`reg` at line 270 and
`update_pointer`'s `static int x` at line 244), and `x`'s storage carries
its value across calls: its address is exactly what
`double_pointer_demo`'s pointer receives on return. -/
theorem c9_claim_false :
    ¬ (programStaticDecls = [] ∧
      (double_pointer_demo initGlobals).2 ≠ some static_x_addr) := by
  decide

/-- Claim C9 (amended): static storage exists (`reg` and `update_pointer`'s
`x`) but no demonstration mutates it — every demonstration returns the
static storage exactly as received, so running any demonstration before
another never changes the other's result. -/
theorem c9_amended (d1 d2 : DemoId) (g : Globals) (m : Nat → Int)
    (pp : Option Nat) :
    runDemoEffect d1 g = g ∧
    runDemoEffect d2 (runDemoEffect d1 g) = runDemoEffect d2 g ∧
    (update_pointer g pp).1 = g ∧
    (null_pointer_demo g m).1 = g := by
  cases d1 <;> cases d2 <;> exact ⟨rfl, rfl, rfl, rfl⟩

/-- Claim C10: dereferencing the void pointer after an explicit cast back
to int recovers exactly the stored value of `a` — the demonstration
prints 10. -/
theorem c10_void_pointer :
    (void_pointer_demo initGlobals).2 = [10] ∧
    writeMem (fun _ => 0) 0 10 0 = 10 :=
  ⟨by decide, by decide⟩
